import Mathlib

/-!
Shallow embedding of the Account model layer (`service/models.py`) of the
devops-capstone-project repository: the `Account` entity with its
`serialize` / `deserialize` / `find_by_name` operations, and the
`PersistentBase` record lifecycle (`create` / `delete` / `all` / `find`).

Python runtime values that can appear in a deserialization payload are
modelled by `PyVal`; the payload itself (the argument of `deserialize`,
which may or may not be a mapping) by `PyData`; Python exceptions that the
code can raise or translate by `PyError`.  `date.today()` is modelled by an
explicit `today : PyDate` argument threaded into `deserialize`, making the
clock at the moment of the call explicit.  Fallible code returns
`Except PyError`; `deserialize` additionally returns the (possibly only
partly updated) instance, because the Python code mutates `self` field by
field before any exception is raised.
-/

/-- A Python value occurring in a request payload or an Account field:
`None`, a text value, or an integer. -/
inductive PyVal where
  | vNone
  | vStr (s : String)
  | vInt (n : Int)
deriving DecidableEq

/-- Python truthiness of a `PyVal`: `None`, the empty string and `0` are
falsy, everything else is truthy (used by `if date_joined else` in
`Account.deserialize` line 111). -/
def PyVal.truthy : PyVal → Bool
  | .vNone => false
  | .vStr s => !(s == "")
  | .vInt n => !(n == 0)

/-- The argument passed to `Account.deserialize`: either a mapping (a dict,
embedded as an association list over string keys) or a non-mapping such as
a list. -/
inductive PyData where
  | dict (entries : List (String × PyVal))
  | list (elems : List PyVal)
deriving DecidableEq

/-- The Python exceptions relevant to `service/models.py`: `KeyError`
(carrying the missing key as `args[0]`), `TypeError`, `ValueError`,
`AttributeError`, and the repository's own `DataValidationError`
(models.py line 17). -/
inductive PyError where
  | keyError (key : String)
  | typeError (msg : String)
  | valueError (msg : String)
  | attributeError (msg : String)
  | dataValidationError (msg : String)
deriving DecidableEq

/-- Subscript access `data[k]` for a string key `k`: on a dict it yields the
value or raises `KeyError(k)`; on a list it raises `TypeError`, since list
indices must be integers. -/
def PyData.getItem : PyData → String → Except PyError PyVal
  | .dict entries, k =>
    match entries.lookup k with
    | some v => .ok v
    | none => .error (.keyError k)
  | .list _, _ => .error (.typeError "list indices must be integers or slices, not str")

/-- Method call `data.get(k)`: on a dict it yields the value or `None`; on a
list there is no such attribute (`AttributeError`; unreachable in
`deserialize`, where `data[...]` has already raised `TypeError`). -/
def PyData.get : PyData → String → Except PyError PyVal
  | .dict entries, k => .ok ((entries.lookup k).getD .vNone)
  | .list _, _ => .error (.attributeError "list object has no attribute get")

/-- A Python `datetime.date`: a calendar date. -/
structure PyDate where
  year : Nat
  month : Nat
  day : Nat
deriving DecidableEq

/-- Gregorian leap-year rule, as used by `datetime.date`. -/
def isLeapYear (y : Nat) : Bool :=
  y % 4 == 0 && (y % 100 != 0 || y % 400 == 0)

/-- Number of days in month `m` of year `y`. -/
def daysInMonth (y m : Nat) : Nat :=
  if m = 2 then (if isLeapYear y then 29 else 28)
  else if m = 4 ∨ m = 6 ∨ m = 9 ∨ m = 11 then 30
  else 31

/-- Left-pads the decimal rendering of `n` with zeros to width `w`. -/
def zpad (w n : Nat) : String :=
  let s := toString n
  String.mk (List.replicate (w - s.length) '0') ++ s

/-- `date.isoformat()`: renders a date as `YYYY-MM-DD`. -/
def PyDate.isoformat (d : PyDate) : String :=
  zpad 4 d.year ++ "-" ++ zpad 2 d.month ++ "-" ++ zpad 2 d.day

/-- Value of a decimal digit character, if it is one. -/
def digitVal (c : Char) : Option Nat :=
  if c.isDigit then some (c.toNat - 48) else none

/-- `date.fromisoformat` on a string: accepts exactly the format
`YYYY-MM-DD` (four digits, dash, two digits, dash, two digits) denoting a
valid calendar date with year at least 1; anything else is rejected. -/
def parseIsoDate (s : String) : Option PyDate :=
  match s.toList with
  | [y1, y2, y3, y4, sep1, m1, m2, sep2, d1, d2] =>
    if sep1 = '-' ∧ sep2 = '-' then
      match digitVal y1, digitVal y2, digitVal y3, digitVal y4,
            digitVal m1, digitVal m2, digitVal d1, digitVal d2 with
      | some a, some b, some c, some d, some e, some f, some g, some h =>
        let year := ((a * 10 + b) * 10 + c) * 10 + d
        let month := e * 10 + f
        let day := g * 10 + h
        if 1 ≤ year ∧ 1 ≤ month ∧ month ≤ 12 ∧ 1 ≤ day ∧ day ≤ daysInMonth year month then
          some ⟨year, month, day⟩
        else none
      | _, _, _, _, _, _, _, _ => none
    else none
  | _ => none

/-- `date.fromisoformat(v)` on an arbitrary Python value: a string is
parsed (raising `ValueError` if it is not a valid ISO date); any
non-string argument raises `TypeError`. -/
def PyVal.fromisoformat : PyVal → Except PyError PyDate
  | .vStr s =>
    match parseIsoDate s with
    | some d => .ok d
    | none => .error (.valueError ("Invalid isoformat string: " ++ s))
  | _ => .error (.typeError "fromisoformat: argument must be str")

/-- The `Account` entity of models.py lines 73-82.  A freshly constructed
`Account()` has every field `None` (the column default `date.today` for
`date_joined` applies at the storage layer, not at construction). -/
structure Account where
  id : Option Int := none
  name : PyVal := .vNone
  email : PyVal := .vNone
  address : PyVal := .vNone
  phone_number : PyVal := .vNone
  date_joined : Option PyDate := none
deriving DecidableEq

/-- `Account.serialize` (models.py lines 87-96): a pure function of the
instance producing the six-key mapping; `date_joined` is rendered via
`isoformat()` when set and as `None` otherwise. -/
def Account.serialize (a : Account) : List (String × PyVal) :=
  [("id", match a.id with | some i => .vInt i | none => .vNone),
   ("name", a.name),
   ("email", a.email),
   ("address", a.address),
   ("phone_number", a.phone_number),
   ("date_joined", match a.date_joined with | some d => .vStr d.isoformat | none => .vNone)]

/-- The `try` body of `Account.deserialize` (models.py lines 106-111),
assigning `self.name`, `self.email`, `self.address`, `self.phone_number`
and `self.date_joined` in that order.  Returns the raised exception or the
fully updated instance, paired with the state of the instance at the point
the body stopped (which is partly updated when an exception interrupts
it). -/
def deserializeBody (a : Account) (today : PyDate) (data : PyData) :
    Except PyError Account × Account :=
  match data.getItem "name" with
  | .error e => (.error e, a)
  | .ok nv =>
    let a1 := { a with name := nv }
    match data.getItem "email" with
    | .error e => (.error e, a1)
    | .ok ev =>
      let a2 := { a1 with email := ev }
      match data.getItem "address" with
      | .error e => (.error e, a2)
      | .ok av =>
        let a3 := { a2 with address := av }
        match data.get "phone_number" with
        | .error e => (.error e, a3)
        | .ok pv =>
          let a4 := { a3 with phone_number := pv }
          match data.get "date_joined" with
          | .error e => (.error e, a4)
          | .ok dj =>
            if dj.truthy then
              match dj.fromisoformat with
              | .error e => (.error e, a4)
              | .ok d => (.ok { a4 with date_joined := some d }, { a4 with date_joined := some d })
            else
              (.ok { a4 with date_joined := some today }, { a4 with date_joined := some today })

/-- `Account.deserialize` (models.py lines 98-118): runs the `try` body and
translates `KeyError(k)` into `DataValidationError("Invalid Account:
missing k")` and `TypeError(m)` into `DataValidationError("Invalid
Account: body of request contained bad or no data - m")`; any other
exception (in particular `ValueError` from date parsing) propagates
unchanged.  On success it returns `self`.  The second component is the
state of the mutated instance in every case. -/
def Account.deserialize (a : Account) (today : PyDate) (data : PyData) :
    Except PyError Account × Account :=
  match deserializeBody a today data with
  | (.ok a2, a3) => (.ok a2, a3)
  | (.error (.keyError k), a2) =>
    (.error (.dataValidationError ("Invalid Account: missing " ++ k)), a2)
  | (.error (.typeError m), a2) =>
    (.error (.dataValidationError ("Invalid Account: body of request contained bad or no data - " ++ m)), a2)
  | (.error e, a2) => (.error e, a2)

/-- Modelled from the spec: the storage boundary (spec section 6) is an
external relational database reached through a shared session object and
is not part of `src/`; it is modelled as the ordered list of persisted
rows plus the next surrogate primary key to assign (ids are assigned in
increasing order, so freshness is captured by `nextId`). -/
structure DB where
  rows : List Account := []
  nextId : Int := 1

/-- Modelled from the spec: a well-formed storage state assigns every
persisted row an id smaller than the next id to be assigned, so that newly
assigned ids are unique. -/
def DB.wf (db : DB) : Prop :=
  ∀ r ∈ db.rows, ∀ i, r.id = some i → i < db.nextId

/-- Modelled from the spec: `PersistentBase.create` (models.py lines 32-36)
adds the instance to the session and commits; the storage assigns the
unique surrogate id (spec section 4.1: after return, `id` is set and the
record is retrievable).  Returns the updated instance and storage state. -/
def PersistentBase.create (a : Account) (db : DB) : Account × DB :=
  let a2 := { a with id := some db.nextId }
  (a2, { rows := db.rows ++ [a2], nextId := db.nextId + 1 })

/-- Modelled from the spec: `PersistentBase.delete` (models.py lines 43-47)
removes the record with the instance's primary key from storage and
commits. -/
def PersistentBase.delete (a : Account) (db : DB) : DB :=
  { db with rows := db.rows.filter (fun r => !(r.id == a.id)) }

/-- Modelled from the spec: `PersistentBase.all` (models.py lines 57-61)
returns all persisted records in the storage's natural order. -/
def PersistentBase.all (db : DB) : List Account :=
  db.rows

/-- Modelled from the spec: `PersistentBase.find` (models.py lines 63-67),
`cls.query.get(by_id)`: the record with the given primary key, or an
absent result on a miss. -/
def PersistentBase.find (db : DB) (by_id : Int) : Option Account :=
  db.rows.find? (fun r => r.id == some by_id)

/-- Modelled from the spec: `Account.find_by_name` (models.py lines
120-124), `cls.query.filter(cls.name == name).all()`: all persisted rows
whose `name` column equals the given string exactly, in storage order. -/
def Account.find_by_name (db : DB) (name : String) : List Account :=
  db.rows.filter (fun r => r.name == .vStr name)

/-- C2: for every mapping missing at least one of the required keys `name`,
`email`, `address`, `deserialize` fails with a `DataValidationError` whose
message states a key that is indeed missing; for the empty mapping the
error cites `name`, which is checked first. -/
theorem C2_missing_required_key (a : Account) (today : PyDate)
    (entries : List (String × PyVal))
    (h : entries.lookup "name" = none ∨ entries.lookup "email" = none ∨
      entries.lookup "address" = none) :
    (∃ k, (k = "name" ∨ k = "email" ∨ k = "address") ∧ entries.lookup k = none ∧
      (Account.deserialize a today (.dict entries)).1 =
        .error (.dataValidationError ("Invalid Account: missing " ++ k))) ∧
    (Account.deserialize a today (.dict [])).1 =
      .error (.dataValidationError "Invalid Account: missing name") := by
  constructor
  · rcases hname : entries.lookup "name" with _ | vn
    · refine ⟨"name", Or.inl rfl, hname, ?_⟩
      simp [Account.deserialize, deserializeBody, PyData.getItem, hname]
    · rcases hemail : entries.lookup "email" with _ | ve
      · refine ⟨"email", Or.inr (Or.inl rfl), hemail, ?_⟩
        simp [Account.deserialize, deserializeBody, PyData.getItem, hname, hemail]
      · rcases haddr : entries.lookup "address" with _ | va
        · refine ⟨"address", Or.inr (Or.inr rfl), haddr, ?_⟩
          simp [Account.deserialize, deserializeBody, PyData.getItem, hname, hemail, haddr]
        · rcases h with h | h | h <;> simp_all
  · rfl

/-- Witness for C2: the mapping containing only `name` is missing a
required key, and deserializing it (and the empty mapping) yields the
stated validation errors. -/
theorem C2_missing_required_key_witness :
    (∃ k, (k = "name" ∨ k = "email" ∨ k = "address") ∧
      List.lookup k [("name", PyVal.vStr "a")] = none ∧
      (Account.deserialize {} ⟨2023, 5, 17⟩ (.dict [("name", PyVal.vStr "a")])).1 =
        .error (.dataValidationError ("Invalid Account: missing " ++ k))) ∧
    (Account.deserialize {} ⟨2023, 5, 17⟩ (.dict [])).1 =
      .error (.dataValidationError "Invalid Account: missing name") :=
  C2_missing_required_key {} ⟨2023, 5, 17⟩ [("name", PyVal.vStr "a")]
    (Or.inr (Or.inl (by decide)))

/-- C3: for every non-mapping input (a list), `deserialize` fails with the
`DataValidationError` describing a malformed request body; the failure
arises in the body as a `TypeError` (not a `KeyError`), and its message
differs from every missing-key message. -/
theorem C3_non_mapping_input (a : Account) (today : PyDate) (elems : List PyVal) :
    Account.deserialize a today (.list elems) =
      (.error (.dataValidationError
        "Invalid Account: body of request contained bad or no data - list indices must be integers or slices, not str"),
       a) ∧
    deserializeBody a today (.list elems) =
      (.error (.typeError "list indices must be integers or slices, not str"), a) ∧
    ∀ k : String,
      ("Invalid Account: body of request contained bad or no data - list indices must be integers or slices, not str" : String) ≠
        "Invalid Account: missing " ++ k := by
  refine ⟨rfl, rfl, ?_⟩
  intro k h
  obtain ⟨l⟩ := k
  have hd := congrArg String.data h
  simp only [String.data_append] at hd
  have h18 := congrArg (List.take 18) hd
  rw [List.take_append_of_le_length (by decide)] at h18
  exact absurd h18 (by decide)

/-- C5: `serialize` returns a mapping with exactly the six keys
`id, name, email, address, phone_number, date_joined` in that order, each
entry the corresponding field, with `date_joined` rendered as the
zero-padded `YYYY-MM-DD` string when set and as `None` when unset.  In the
embedding it is a plain function of the instance, with no effects. -/
theorem C5_serialize_shape (a : Account) :
    (a.serialize).map Prod.fst =
      ["id", "name", "email", "address", "phone_number", "date_joined"] ∧
    (a.serialize).lookup "id" =
      some (match a.id with | some i => PyVal.vInt i | none => PyVal.vNone) ∧
    (a.serialize).lookup "name" = some a.name ∧
    (a.serialize).lookup "email" = some a.email ∧
    (a.serialize).lookup "address" = some a.address ∧
    (a.serialize).lookup "phone_number" = some a.phone_number ∧
    (a.serialize).lookup "date_joined" =
      some (match a.date_joined with
        | some d => PyVal.vStr (zpad 4 d.year ++ "-" ++ zpad 2 d.month ++ "-" ++ zpad 2 d.day)
        | none => PyVal.vNone) := by
  obtain ⟨i, nm, em, ad, ph, dj⟩ := a
  exact ⟨rfl, rfl, rfl, rfl, rfl, rfl, by cases dj <;> rfl⟩

/-- C9: `deserialize` is not atomic on validation failure: when the mapping
contains `name` but lacks `email`, the raised missing-email error leaves
the instance with its `name` field already overwritten by the mapping's
value (all other fields unchanged). -/
theorem C9_partial_mutation_on_failure (a : Account) (today : PyDate)
    (entries : List (String × PyVal)) (vn : PyVal)
    (hn : entries.lookup "name" = some vn)
    (he : entries.lookup "email" = none) :
    Account.deserialize a today (.dict entries) =
      (.error (.dataValidationError "Invalid Account: missing email"),
       { a with name := vn }) := by
  simp [Account.deserialize, deserializeBody, PyData.getItem, hn, he]

/-- Witness for C9: deserializing a mapping holding only a name leaves the
name overwritten when the missing-email error is raised. -/
theorem C9_partial_mutation_on_failure_witness :
    Account.deserialize {} ⟨2023, 5, 17⟩ (.dict [("name", PyVal.vStr "alice")]) =
      (.error (.dataValidationError "Invalid Account: missing email"),
       { name := PyVal.vStr "alice" }) :=
  C9_partial_mutation_on_failure {} ⟨2023, 5, 17⟩ [("name", PyVal.vStr "alice")]
    (PyVal.vStr "alice") (by decide) (by decide)
/-- Counterexample to C1 as stated: this mapping contains `name`, `email`
and `address` with text values, yet `deserialize` raises (an uncaught
`ValueError` from date parsing), so no serialized round-trip result
exists. -/
theorem C1_roundtrip_counterexample :
    (Account.deserialize {} ⟨2023, 5, 17⟩ (.dict [("name", .vStr "a"),
      ("email", .vStr "b"), ("address", .vStr "c"),
      ("date_joined", .vStr "not-a-date")])).1 =
      .error (.valueError "Invalid isoformat string: not-a-date") := by rfl

/-- C1 (amended): for every mapping containing `name`, `email`, `address`
with text values, whose `date_joined` entry — when present and truthy —
parses as an ISO-8601 date, `deserialize` succeeds and `serialize` of the
result reproduces the three text entries exactly and renders a non-null
`date_joined`. -/
theorem C1_deserialize_serialize_roundtrip (a : Account) (today : PyDate)
    (entries : List (String × PyVal)) (n e ad : String)
    (hn : entries.lookup "name" = some (.vStr n))
    (he : entries.lookup "email" = some (.vStr e))
    (ha : entries.lookup "address" = some (.vStr ad))
    (hd : ∀ dv, entries.lookup "date_joined" = some dv → dv.truthy = true →
      ∃ d, dv.fromisoformat = Except.ok d) :
    (Account.deserialize a today (.dict entries)).1 =
      .ok (Account.deserialize a today (.dict entries)).2 ∧
    ((Account.deserialize a today (.dict entries)).2.serialize).lookup "name" =
      some (.vStr n) ∧
    ((Account.deserialize a today (.dict entries)).2.serialize).lookup "email" =
      some (.vStr e) ∧
    ((Account.deserialize a today (.dict entries)).2.serialize).lookup "address" =
      some (.vStr ad) ∧
    ((Account.deserialize a today (.dict entries)).2.serialize).lookup "date_joined" ≠
      some PyVal.vNone ∧
    ((Account.deserialize a today (.dict entries)).2.serialize).lookup "date_joined" ≠
      none := by
  rcases hdj : entries.lookup "date_joined" with _ | dv
  · simp [Account.deserialize, deserializeBody, PyData.getItem, PyData.get,
      hn, he, ha, hdj, PyVal.truthy, Account.serialize, List.lookup]
  · rcases htr : dv.truthy with _ | _
    · simp [Account.deserialize, deserializeBody, PyData.getItem, PyData.get,
        hn, he, ha, hdj, htr, Account.serialize, List.lookup]
    · obtain ⟨d, hdok⟩ := hd dv hdj htr
      simp [Account.deserialize, deserializeBody, PyData.getItem, PyData.get,
        hn, he, ha, hdj, htr, hdok, Account.serialize, List.lookup]

/-- Witness for C1 (amended) at a mapping without `date_joined`. -/
theorem C1_deserialize_serialize_roundtrip_witness :
    (Account.deserialize {} ⟨2023, 5, 17⟩ (.dict [("name", .vStr "John"),
      ("email", .vStr "john@x.io"), ("address", .vStr "1 Main St")])).1 =
      .ok (Account.deserialize {} ⟨2023, 5, 17⟩ (.dict [("name", .vStr "John"),
        ("email", .vStr "john@x.io"), ("address", .vStr "1 Main St")])).2 ∧
    ((Account.deserialize {} ⟨2023, 5, 17⟩ (.dict [("name", .vStr "John"),
      ("email", .vStr "john@x.io"),
      ("address", .vStr "1 Main St")])).2.serialize).lookup "name" =
      some (.vStr "John") ∧
    ((Account.deserialize {} ⟨2023, 5, 17⟩ (.dict [("name", .vStr "John"),
      ("email", .vStr "john@x.io"),
      ("address", .vStr "1 Main St")])).2.serialize).lookup "email" =
      some (.vStr "john@x.io") ∧
    ((Account.deserialize {} ⟨2023, 5, 17⟩ (.dict [("name", .vStr "John"),
      ("email", .vStr "john@x.io"),
      ("address", .vStr "1 Main St")])).2.serialize).lookup "address" =
      some (.vStr "1 Main St") ∧
    ((Account.deserialize {} ⟨2023, 5, 17⟩ (.dict [("name", .vStr "John"),
      ("email", .vStr "john@x.io"),
      ("address", .vStr "1 Main St")])).2.serialize).lookup "date_joined" ≠
      some PyVal.vNone ∧
    ((Account.deserialize {} ⟨2023, 5, 17⟩ (.dict [("name", .vStr "John"),
      ("email", .vStr "john@x.io"),
      ("address", .vStr "1 Main St")])).2.serialize).lookup "date_joined" ≠
      none :=
  C1_deserialize_serialize_roundtrip {} ⟨2023, 5, 17⟩
    [("name", .vStr "John"), ("email", .vStr "john@x.io"), ("address", .vStr "1 Main St")]
    "John" "john@x.io" "1 Main St" (by decide) (by decide) (by decide)
    (by intro dv hdv htr; simp [List.lookup] at hdv)

/-- Counterexample to C4 as stated: `date_joined` is present with the value
`""`, which does not parse as an ISO-8601 date, yet `deserialize` succeeds
and stores the current date instead of the (non-existent) parse of the
present value. -/
theorem C4_date_joined_counterexample :
    List.lookup "date_joined" [("name", PyVal.vStr "a"), ("email", PyVal.vStr "b"),
      ("address", PyVal.vStr "c"), ("date_joined", PyVal.vStr "")] =
      some (PyVal.vStr "") ∧
    parseIsoDate "" = none ∧
    (Account.deserialize {} ⟨2023, 6, 1⟩ (.dict [("name", PyVal.vStr "a"),
      ("email", PyVal.vStr "b"), ("address", PyVal.vStr "c"),
      ("date_joined", PyVal.vStr "")])).1 =
      .ok { name := .vStr "a", email := .vStr "b", address := .vStr "c",
            date_joined := some ⟨2023, 6, 1⟩ } :=
  ⟨rfl, rfl, rfl⟩

/-- C4 (amended): with the required keys present, (i) when the
`date_joined` entry is absent or falsy (e.g. null or the empty string),
`deserialize` succeeds and sets `date_joined` to the clock at the moment
of the call — whatever the instance's previous `date_joined` was; (ii) when
it is present and its value parses as an ISO-8601 date, `deserialize`
succeeds and stores the parsed date; (iii) when it is present, truthy and
unparseable, `deserialize` does not succeed. -/
theorem C4_date_joined_default_or_parse (a : Account) (today : PyDate)
    (entries : List (String × PyVal)) (vn ve va : PyVal)
    (hn : entries.lookup "name" = some vn)
    (he : entries.lookup "email" = some ve)
    (ha : entries.lookup "address" = some va) :
    ((((entries.lookup "date_joined").getD PyVal.vNone).truthy = false) →
      (Account.deserialize a today (.dict entries)).1 =
        .ok (Account.deserialize a today (.dict entries)).2 ∧
      (Account.deserialize a today (.dict entries)).2.date_joined = some today) ∧
    (∀ dv d, entries.lookup "date_joined" = some dv → dv.fromisoformat = Except.ok d →
      (Account.deserialize a today (.dict entries)).1 =
        .ok (Account.deserialize a today (.dict entries)).2 ∧
      (Account.deserialize a today (.dict entries)).2.date_joined = some d) ∧
    (∀ dv m, entries.lookup "date_joined" = some dv → dv.truthy = true →
      dv.fromisoformat = Except.error m →
      ∀ a2, (Account.deserialize a today (.dict entries)).1 ≠ .ok a2) := by
  refine ⟨?_, ?_, ?_⟩
  · intro hfalsy
    rcases hdj : entries.lookup "date_joined" with _ | dv
    · simp [Account.deserialize, deserializeBody, PyData.getItem, PyData.get,
        hn, he, ha, hdj, PyVal.truthy]
    · rw [hdj] at hfalsy
      simp only [Option.getD_some] at hfalsy
      simp [Account.deserialize, deserializeBody, PyData.getItem, PyData.get,
        hn, he, ha, hdj, hfalsy]
  · intro dv d hdj hdok
    have htr : dv.truthy = true := by
      rcases dv with _ | s | m
      · exact absurd hdok (by simp [PyVal.fromisoformat])
      · by_cases hs : s = ""
        · subst hs; exact absurd hdok (by simp [PyVal.fromisoformat, parseIsoDate])
        · simp [PyVal.truthy, hs]
      · exact absurd hdok (by simp [PyVal.fromisoformat])
    simp [Account.deserialize, deserializeBody, PyData.getItem, PyData.get,
      hn, he, ha, hdj, htr, hdok]
  · intro dv m hdj htr hfail a2
    rcases m with k | msg | msg | msg | msg <;>
      simp [Account.deserialize, deserializeBody, PyData.getItem, PyData.get,
        hn, he, ha, hdj, htr, hfail]

/-- Witness for C4 (amended): with `date_joined` absent, deserialization on
2023-06-01 stores exactly that date. -/
theorem C4_date_joined_default_or_parse_witness :
    (Account.deserialize {} ⟨2023, 6, 1⟩ (.dict [("name", PyVal.vStr "a"),
      ("email", PyVal.vStr "b"), ("address", PyVal.vStr "c")])).1 =
      .ok (Account.deserialize {} ⟨2023, 6, 1⟩ (.dict [("name", PyVal.vStr "a"),
        ("email", PyVal.vStr "b"), ("address", PyVal.vStr "c")])).2 ∧
    (Account.deserialize {} ⟨2023, 6, 1⟩ (.dict [("name", PyVal.vStr "a"),
      ("email", PyVal.vStr "b"), ("address", PyVal.vStr "c")])).2.date_joined =
      some ⟨2023, 6, 1⟩ :=
  (C4_date_joined_default_or_parse {} ⟨2023, 6, 1⟩
    [("name", PyVal.vStr "a"), ("email", PyVal.vStr "b"), ("address", PyVal.vStr "c")]
    (PyVal.vStr "a") (PyVal.vStr "b") (PyVal.vStr "c")
    (by decide) (by decide) (by decide)).1 (by decide)

/-- Counterexample to C10 as stated: the integer `0` is a non-string
`date_joined` value, yet `deserialize` succeeds (the value is falsy, so
`date.fromisoformat` is never reached and no `DataValidationError` is
raised). -/
theorem C10_date_errors_counterexample :
    (Account.deserialize {} ⟨2023, 6, 1⟩ (.dict [("name", .vStr "a"),
      ("email", .vStr "b"), ("address", .vStr "c"),
      ("date_joined", .vInt 0)])).1 =
      .ok { name := .vStr "a", email := .vStr "b", address := .vStr "c",
            date_joined := some ⟨2023, 6, 1⟩ } := by rfl

/-- C10 (amended): with the required keys present, a non-empty `date_joined`
string that is not a valid ISO-8601 date makes `deserialize` fail with an
untranslated `ValueError` (not a `DataValidationError`), while a truthy
non-string value such as a nonzero integer is translated into the
`DataValidationError` for bad request data (a falsy value such as `0`
instead makes the field default, as the counterexample shows). -/
theorem C10_date_parse_failure_modes (a : Account) (today : PyDate)
    (entries : List (String × PyVal)) (vn ve va : PyVal)
    (hn : entries.lookup "name" = some vn)
    (he : entries.lookup "email" = some ve)
    (ha : entries.lookup "address" = some va) :
    (∀ s : String, entries.lookup "date_joined" = some (.vStr s) → s ≠ "" →
      parseIsoDate s = none →
      (Account.deserialize a today (.dict entries)).1 =
        .error (.valueError ("Invalid isoformat string: " ++ s))) ∧
    (∀ m : Int, entries.lookup "date_joined" = some (.vInt m) → m ≠ 0 →
      (Account.deserialize a today (.dict entries)).1 =
        .error (.dataValidationError
          "Invalid Account: body of request contained bad or no data - fromisoformat: argument must be str")) := by
  constructor
  · intro s hdj hs hparse
    simp [Account.deserialize, deserializeBody, PyData.getItem, PyData.get,
      hn, he, ha, hdj, PyVal.truthy, hs, PyVal.fromisoformat, hparse]
  · intro m hdj hm
    simp [Account.deserialize, deserializeBody, PyData.getItem, PyData.get,
      hn, he, ha, hdj, PyVal.truthy, hm, PyVal.fromisoformat]

/-- Witness for C10 (amended): an unparseable date string propagates as a
`ValueError`; a nonzero integer becomes the bad-data validation error. -/
theorem C10_date_parse_failure_modes_witness :
    (Account.deserialize {} ⟨2023, 6, 1⟩ (.dict [("name", .vStr "a"),
      ("email", .vStr "b"), ("address", .vStr "c"),
      ("date_joined", .vStr "not-a-date")])).1 =
      .error (.valueError "Invalid isoformat string: not-a-date") ∧
    (Account.deserialize {} ⟨2023, 6, 1⟩ (.dict [("name", .vStr "a"),
      ("email", .vStr "b"), ("address", .vStr "c"),
      ("date_joined", .vInt 7)])).1 =
      .error (.dataValidationError
        "Invalid Account: body of request contained bad or no data - fromisoformat: argument must be str") :=
  ⟨(C10_date_parse_failure_modes {} ⟨2023, 6, 1⟩
      [("name", .vStr "a"), ("email", .vStr "b"), ("address", .vStr "c"),
       ("date_joined", .vStr "not-a-date")]
      (.vStr "a") (.vStr "b") (.vStr "c") (by decide) (by decide) (by decide)).1
      "not-a-date" (by decide) (by decide) (by decide),
   (C10_date_parse_failure_modes {} ⟨2023, 6, 1⟩
      [("name", .vStr "a"), ("email", .vStr "b"), ("address", .vStr "c"),
       ("date_joined", .vInt 7)]
      (.vStr "a") (.vStr "b") (.vStr "c") (by decide) (by decide) (by decide)).2
      7 (by decide) (by decide)⟩
/-- C6: creating a transient Account in a well-formed storage state assigns
it the fresh non-null id, `find` on that id retrieves exactly the created
record, and every data field of the created record equals the transient
original's. -/
theorem C6_create_assigns_id_and_find (a : Account) (db : DB) (hwf : db.wf)
    (ht : a.id = none) :
    (PersistentBase.create a db).1.id = some db.nextId ∧
    PersistentBase.find (PersistentBase.create a db).2 db.nextId =
      some (PersistentBase.create a db).1 ∧
    (PersistentBase.create a db).1.name = a.name ∧
    (PersistentBase.create a db).1.email = a.email ∧
    (PersistentBase.create a db).1.address = a.address ∧
    (PersistentBase.create a db).1.phone_number = a.phone_number ∧
    (PersistentBase.create a db).1.date_joined = a.date_joined := by
  refine ⟨rfl, ?_, rfl, rfl, rfl, rfl, rfl⟩
  have hnone : db.rows.find? (fun r => r.id == some db.nextId) = none := by
    rw [List.find?_eq_none]
    intro r hr hbeq
    have heq : r.id = some db.nextId := by simpa using hbeq
    exact absurd (hwf r hr db.nextId heq) (lt_irrefl _)
  simp only [PersistentBase.find, PersistentBase.create, List.find?_append, hnone,
    Option.none_or]
  simp [List.find?]

/-- Witness for C6: creating a fresh Account in the empty storage state. -/
theorem C6_create_assigns_id_and_find_witness :
    (PersistentBase.create {} ⟨[], 1⟩).1.id = some 1 ∧
    PersistentBase.find (PersistentBase.create {} ⟨[], 1⟩).2 1 =
      some (PersistentBase.create {} ⟨[], 1⟩).1 ∧
    (PersistentBase.create {} ⟨[], 1⟩).1.name = ({} : Account).name ∧
    (PersistentBase.create {} ⟨[], 1⟩).1.email = ({} : Account).email ∧
    (PersistentBase.create {} ⟨[], 1⟩).1.address = ({} : Account).address ∧
    (PersistentBase.create {} ⟨[], 1⟩).1.phone_number = ({} : Account).phone_number ∧
    (PersistentBase.create {} ⟨[], 1⟩).1.date_joined = ({} : Account).date_joined :=
  C6_create_assigns_id_and_find {} ⟨[], 1⟩
    (by intro r hr; exact absurd hr (List.not_mem_nil r)) rfl

/-- C7: after deleting a persisted Account, `find` on its id is absent and
`all` contains no record with that id (stated as: filtering `all` for that
id yields the empty list). -/
theorem C7_delete_then_absent (a : Account) (db : DB) (i : Int)
    (hid : a.id = some i) :
    PersistentBase.find (PersistentBase.delete a db) i = none ∧
    (PersistentBase.all (PersistentBase.delete a db)).filter
      (fun r => r.id == some i) = [] := by
  constructor
  · rw [PersistentBase.find, List.find?_eq_none]
    intro r hr hbeq
    rw [PersistentBase.delete] at hr
    simp only [List.mem_filter] at hr
    have heq : r.id = some i := by simpa using hbeq
    rw [hid, heq] at hr
    simp at hr
  · rw [PersistentBase.all, PersistentBase.delete]
    simp only [List.filter_eq_nil_iff, List.mem_filter]
    rintro r ⟨hmem, hkeep⟩
    rw [hid] at hkeep
    simpa using hkeep

/-- Witness for C7: deleting the only persisted record empties the
storage for its id. -/
theorem C7_delete_then_absent_witness :
    PersistentBase.find (PersistentBase.delete
      { id := some 1, name := PyVal.vStr "x" }
      ⟨[{ id := some 1, name := PyVal.vStr "x" }], 2⟩) 1 = none ∧
    (PersistentBase.all (PersistentBase.delete
      { id := some 1, name := PyVal.vStr "x" }
      ⟨[{ id := some 1, name := PyVal.vStr "x" }], 2⟩)).filter
      (fun r => r.id == some 1) = [] :=
  C7_delete_then_absent { id := some 1, name := PyVal.vStr "x" }
    ⟨[{ id := some 1, name := PyVal.vStr "x" }], 2⟩ 1 rfl

/-- C8: `find_by_name` returns exactly the persisted records whose `name`
equals the given text value (comparison by string equality, which is
case-sensitive), and when no record matches it returns the empty list. -/
theorem C8_find_by_name_exact (db : DB) (n : String) :
    (∀ r, r ∈ Account.find_by_name db n ↔ r ∈ db.rows ∧ r.name = .vStr n) ∧
    ((∀ r ∈ db.rows, r.name ≠ .vStr n) → Account.find_by_name db n = []) := by
  constructor
  · intro r
    simp [Account.find_by_name, List.mem_filter]
  · intro h
    rw [Account.find_by_name, List.filter_eq_nil_iff]
    intro r hr
    simpa using h r hr

/-- Witness for C8: the lookup is case-sensitive and misses return the
empty list — searching "alice" in a store holding only "Alice" yields
nothing. -/
theorem C8_find_by_name_exact_witness :
    Account.find_by_name ⟨[{ id := some 1, name := PyVal.vStr "Alice" }], 2⟩ "alice" = [] :=
  (C8_find_by_name_exact ⟨[{ id := some 1, name := PyVal.vStr "Alice" }], 2⟩ "alice").2
    (by decide)
